import Mathlib

/-!
Verification of the infection-risk alert pipeline (infection_risk_alert.py).

The script fetches a bounded window of sensor readings, coerces each of six
tracked fields to a number (safe_float), builds a feature matrix, runs a
pretrained scaler / PCA / clustering chain, tallies the predicted cluster
labels (np.unique with counts), renders the tally through a label-to-tier
mapping, and emits a writeback payload and an e-mail report whose timestamp
is shifted by a fixed UTC+5:30 offset (to_ist).

Shallow embedding conventions: Python floats are modelled as rationals;
fallible Python operations (float(), datetime.strptime, dict access that can
raise) are modelled as Option-valued functions; a raised exception is the
value none.  The pretrained model artifacts (scaler.pkl, pca.pkl, model.pkl)
are not part of the repository; per the design document they are opaque
stages, each a pure per-row operation, and are modelled as such.
-/

namespace InfectionRisk

/-- A raw JSON field value as delivered by the feed: absent/null, a number,
or a string.  `f.get("fieldN")` in the script yields `null` when the key is
missing, so a missing field and an explicit null coincide here. -/
inductive RawValue where
  | null : RawValue
  | num : ℚ → RawValue
  | str : String → RawValue
deriving DecidableEq

/-- Characters stripped by Python float() before parsing (ASCII whitespace). -/
def isPySpace (c : Char) : Bool :=
  c == ' ' || c == '\t' || c == '\n' || c == '\r' || c == Char.ofNat 11 || c == Char.ofNat 12

/-- Strip leading and trailing whitespace from a character list. -/
def trimPy (l : List Char) : List Char :=
  ((l.dropWhile isPySpace).reverse.dropWhile isPySpace).reverse

/-- Value of a list of decimal digit characters, most significant first. -/
def digitsVal (l : List Char) : Nat :=
  l.foldl (fun a c => a * 10 + (c.toNat - 48)) 0

/-- Consume an optional leading sign; returns (isNegative, rest). -/
def parseSign : List Char → (Bool × List Char)
  | '-' :: r => (true, r)
  | '+' :: r => (false, r)
  | l => (false, l)

/-- Parse the exponent digits after an `e`/`E` (with optional sign) and apply
them to the mantissa `q`; the whole rest of the input must be consumed. -/
def parseExpTail (q : ℚ) (r : List Char) : Option ℚ :=
  let (neg, r1) := parseSign r
  let ds := r1.takeWhile Char.isDigit
  let r2 := r1.dropWhile Char.isDigit
  if ds.isEmpty || !r2.isEmpty then none
  else some (if neg then q / 10 ^ digitsVal ds else q * 10 ^ digitsVal ds)

/-- Parse an optional exponent part; empty input returns the mantissa as is. -/
def parseExp (q : ℚ) : List Char → Option ℚ
  | [] => some q
  | 'e' :: r => parseExpTail q r
  | 'E' :: r => parseExpTail q r
  | _ => none

/-- Parse the mantissa: digits, optionally with a decimal point on either
side (`12`, `12.`, `12.5`, `.5`).  Returns the value and the unconsumed rest. -/
def parseMantissa (cs : List Char) : Option (ℚ × List Char) :=
  let ds1 := cs.takeWhile Char.isDigit
  let r1 := cs.dropWhile Char.isDigit
  match r1 with
  | '.' :: r2 =>
    let ds2 := r2.takeWhile Char.isDigit
    let r3 := r2.dropWhile Char.isDigit
    if ds1.isEmpty && ds2.isEmpty then none
    else some (((digitsVal ds1 : ℚ) * 10 ^ ds2.length + digitsVal ds2) / 10 ^ ds2.length, r3)
  | _ => if ds1.isEmpty then none else some ((digitsVal ds1 : ℚ), r1)

/-- Parse a full float literal: optional sign, mantissa, optional exponent;
the input must be consumed entirely. -/
def parseFloatChars (cs : List Char) : Option ℚ :=
  let (neg, r0) := parseSign cs
  match parseMantissa r0 with
  | none => none
  | some (q, r1) => (parseExp q r1).map (fun v => if neg then -v else v)

/-- Model of Python `float(x)` on a raw feed value, as an Option: `none` is a
raised exception (TypeError on null, ValueError on a malformed string).
Finite decimal/exponent literals are covered; the non-finite specials
(`inf`, `nan`) and digit-group underscores lie outside the rational model
and parse to `none` here. -/
def pythonFloat? : RawValue → Option ℚ
  | RawValue.null => none
  | RawValue.num q => some q
  | RawValue.str s => parseFloatChars (trimPy s.data)

/-- `safe_float` from the script: `try: return float(x) except: return 0.0`. -/
def safe_float (x : RawValue) : ℚ :=
  (pythonFloat? x).getD 0

/-! ### Timestamp handling (to_ist)

`to_ist` in the script is
`datetime.strptime(s, "%Y-%m-%dT%H:%M:%SZ") + timedelta(hours=5, minutes=30)`
rendered with `strftime("%d-%m-%y %I:%M:%S %p")`.  The parser below follows
CPython strptime for this fixed format: `%Y` is exactly four digits; `%m`,
`%d`, `%H`, `%M`, `%S` accept one or two digits within the directive's
regex ranges; the literals `T` and `Z` match case-insensitively (strptime
compiles its regex with IGNORECASE); the whole string must be consumed; and
the final datetime constructor additionally requires year at least 1, a
calendar-valid day for the month, and seconds at most 59. -/

/-- One parsed calendar timestamp (naive, no timezone). -/
structure PyDateTime where
  year : ℕ
  month : ℕ
  day : ℕ
  hour : ℕ
  minute : ℕ
  second : ℕ
deriving DecidableEq

/-- Decimal digit value of a character, if it is a digit. -/
def digit? (c : Char) : Option ℕ :=
  if c.isDigit then some (c.toNat - 48) else none

/-- Parse exactly four digits (the strptime %Y directive). -/
def parse4 : List Char → Option (ℕ × List Char)
  | a :: b :: c :: d :: rest =>
    match digit? a, digit? b, digit? c, digit? d with
    | some x, some y, some z, some w => some (((x * 10 + y) * 10 + z) * 10 + w, rest)
    | _, _, _, _ => none
  | _ => none

/-- Parse a one- or two-digit field.  A two-digit run must have value in
[lo2, hi2]; a single digit (next character not a digit) must have value in
[lo1, hi1].  This is the deterministic equivalent of the strptime
alternation for %m, %d, %H, %M, %S given that every field here is followed
by a non-digit literal. -/
def parseField (lo2 hi2 lo1 hi1 : ℕ) : List Char → Option (ℕ × List Char)
  | a :: b :: rest =>
    match digit? a with
    | none => none
    | some x =>
      match digit? b with
      | some y =>
        let v := x * 10 + y
        if lo2 ≤ v ∧ v ≤ hi2 then some (v, rest) else none
      | none => if lo1 ≤ x ∧ x ≤ hi1 then some (x, b :: rest) else none
  | [a] =>
    match digit? a with
    | some x => if lo1 ≤ x ∧ x ≤ hi1 then some (x, ([] : List Char)) else none
    | none => none
  | [] => none

/-- Expect one exact literal character. -/
def expectCh (c : Char) : List Char → Option (List Char)
  | a :: rest => if a = c then some rest else none
  | [] => none

/-- Expect one character from a set (used for the case-insensitive literals). -/
def expectAny (cs : List Char) : List Char → Option (List Char)
  | a :: rest => if a ∈ cs then some rest else none
  | [] => none

/-- Proleptic Gregorian leap-year rule (as in Python datetime). -/
def isLeap (y : ℕ) : Bool :=
  y % 4 == 0 && (y % 100 != 0 || y % 400 == 0)

/-- Days in a month of a given year (as in Python datetime). -/
def daysInMonth (y m : ℕ) : ℕ :=
  if m = 2 then (if isLeap y then 29 else 28)
  else if m ∈ ([4, 6, 9, 11] : List ℕ) then 30 else 31

/-- Model of `datetime.strptime(s, "%Y-%m-%dT%H:%M:%SZ")`: `none` is a raised
ValueError. -/
def strptimeTs (s : String) : Option PyDateTime := do
  let (y, r1) ← parse4 s.data
  let r2 ← expectCh '-' r1
  let (mo, r3) ← parseField 1 12 1 9 r2
  let r4 ← expectCh '-' r3
  let (d, r5) ← parseField 1 31 1 9 r4
  let r6 ← expectAny ['T', 't'] r5
  let (h, r7) ← parseField 0 23 0 9 r6
  let r8 ← expectCh ':' r7
  let (mi, r9) ← parseField 0 59 0 9 r8
  let r10 ← expectCh ':' r9
  let (sec, r11) ← parseField 0 61 0 9 r10
  let r12 ← expectAny ['Z', 'z'] r11
  if r12 = [] ∧ 1 ≤ y ∧ d ≤ daysInMonth y mo ∧ sec ≤ 59 then
    some ⟨y, mo, d, h, mi, sec⟩
  else none

/-- Days since 1970-01-01 of a proleptic Gregorian date (the standard
civil-calendar day-number algorithm, matching datetime.toordinal up to the
epoch shift). -/
def daysFromCivil (y m d : ℤ) : ℤ :=
  let y2 := if m ≤ 2 then y - 1 else y
  let era := y2.fdiv 400
  let yoe := y2 - era * 400
  let mp := if 2 < m then m - 3 else m + 9
  let doy := (153 * mp + 2).fdiv 5 + d - 1
  let doe := yoe * 365 + yoe.fdiv 4 - yoe.fdiv 100 + doy
  era * 146097 + doe - 719468

/-- Inverse of `daysFromCivil`: the calendar date of a day number. -/
def civilFromDays (z : ℤ) : ℤ × ℤ × ℤ :=
  let z2 := z + 719468
  let era := z2.fdiv 146097
  let doe := z2 - era * 146097
  let yoe := (doe - doe.fdiv 1460 + doe.fdiv 36524 - doe.fdiv 146096).fdiv 365
  let y := yoe + era * 400
  let doy := doe - (365 * yoe + yoe.fdiv 4 - yoe.fdiv 100)
  let mp := (5 * doy + 2).fdiv 153
  let d := doy - (153 * mp + 2).fdiv 5 + 1
  let m := if mp < 10 then mp + 3 else mp - 9
  (if m ≤ 2 then y + 1 else y, m, d)

/-- Absolute minute count of a timestamp (seconds are carried separately,
as `timedelta(hours=5, minutes=30)` cannot change them). -/
def totalMinutes (dt : PyDateTime) : ℤ :=
  daysFromCivil dt.year dt.month dt.day * 1440 + dt.hour * 60 + dt.minute

/-- Model of `utc_time + timedelta(hours=5, minutes=30)`: Python timedelta
addition is absolute-time arithmetic, i.e. a shift of the minute count by
exactly 330, with days renormalised through the civil calendar. -/
def addMin330 (dt : PyDateTime) : PyDateTime :=
  let n := totalMinutes dt + 330
  let days := n.fdiv 1440
  let rem := (n - days * 1440).toNat
  let c := civilFromDays days
  ⟨c.1.toNat, c.2.1.toNat, c.2.2.toNat, rem / 60, rem % 60, dt.second⟩

/-- Zero-padded two-digit decimal rendering. -/
def zp2s (n : ℕ) : String :=
  (if n < 10 then "0" else "") ++ toString n

/-- Model of `strftime("%d-%m-%y %I:%M:%S %p")`. -/
def renderIst (dt : PyDateTime) : String :=
  let h12 := if dt.hour % 12 = 0 then 12 else dt.hour % 12
  let ampm := if dt.hour < 12 then "AM" else "PM"
  zp2s dt.day ++ "-" ++ zp2s dt.month ++ "-" ++ zp2s (dt.year % 100) ++ " " ++
    zp2s h12 ++ ":" ++ zp2s dt.minute ++ ":" ++ zp2s dt.second ++ " " ++ ampm

/-- `to_ist` from the script; `none` is the propagated strptime ValueError. -/
def to_ist (utc_time_str : String) : Option String :=
  (strptimeTs utc_time_str).map fun dt => renderIst (addMin330 dt)

/-- The character of a decimal digit value. -/
def digitChar (n : ℕ) : Char := Char.ofNat (48 + n)

/-- Two-digit zero-padded rendering as characters (for n at most 99). -/
def zp2 (n : ℕ) : List Char := [digitChar (n / 10), digitChar (n % 10)]

/-- Four-digit zero-padded rendering as characters (for n at most 9999). -/
def zp4 (n : ℕ) : List Char :=
  [digitChar (n / 1000), digitChar (n / 100 % 10), digitChar (n / 10 % 10), digitChar (n % 10)]

/-- The canonical zero-padded YYYY-MM-DDTHH:MM:SSZ rendering of a datetime;
the family of strings over which the parser's acceptance is characterised. -/
def canonicalTs (y mo d h mi s : ℕ) : String :=
  ⟨zp4 y ++ '-' :: (zp2 mo ++ '-' :: (zp2 d ++ 'T' ::
    (zp2 h ++ ':' :: (zp2 mi ++ ':' :: (zp2 s ++ ['Z'])))))⟩

/-! ### Data model and pipeline -/

/-- One raw feed item as fetched from the channel: `created_at` plus the six
tracked fields.  `created_at` is `none` when the key is absent (`f.get`
returns None). -/
structure Feed where
  created_at : Option String
  field1 : RawValue
  field2 : RawValue
  field3 : RawValue
  field4 : RawValue
  field5 : RawValue
  field6 : RawValue
deriving DecidableEq

/-- One normalized row of the DataFrame built by the script. -/
structure Row where
  created_at : Option String
  temp : ℚ
  humidity : ℚ
  pressure : ℚ
  dust : ℚ
  co2 : ℚ
  tvoc : ℚ
deriving DecidableEq, Inhabited

/-- The row dictionary the script appends for each feed item. -/
def mkRow (f : Feed) : Row :=
  { created_at := f.created_at
    temp := safe_float f.field1
    humidity := safe_float f.field2
    pressure := safe_float f.field3
    dust := safe_float f.field4
    co2 := safe_float f.field5
    tvoc := safe_float f.field6 }

/-- Column selection `df[["temp","humidity","pressure","dust","co2","tvoc"]]`
applied to one row: the six tracked fields in canonical order. -/
def rowVec (r : Row) : List ℚ :=
  [r.temp, r.humidity, r.pressure, r.dust, r.co2, r.tvoc]

/-- The feature matrix `X`: one six-column row per feed item, input order
preserved. -/
def featureMatrix (feeds : List Feed) : List (List ℚ) :=
  (feeds.map mkRow).map rowVec

/-- The three pretrained stages.  The pickled artifacts are external to the
repository; per the design document each exposes a pure per-row operation
(per-feature standardization, linear projection, cluster assignment), so
each stage is an opaque row function here. -/
structure RiskModel where
  scaler : List ℚ → List ℚ
  reducer : List ℚ → List ℚ
  classifier : List ℚ → ℤ

/-- `scaled = scaler.transform(X)`. -/
def scaler_transform (m : RiskModel) (X : List (List ℚ)) : List (List ℚ) :=
  X.map m.scaler

/-- `pca_out = pca.transform(scaled)`. -/
def pca_transform (m : RiskModel) (X : List (List ℚ)) : List (List ℚ) :=
  X.map m.reducer

/-- `predictions = model.predict(pca_out)`. -/
def model_predict (m : RiskModel) (X : List (List ℚ)) : List ℤ :=
  X.map m.classifier

/-- The full prediction chain of the script, in its fixed order. -/
def predictions (m : RiskModel) (X : List (List ℚ)) : List ℤ :=
  model_predict m (pca_transform m (scaler_transform m X))

/-- The hand-curated label-to-tier table `cluster_to_risk`. -/
def cluster_to_risk : List (ℤ × String) :=
  [(1, "High Risk"), (0, "Medium Risk"), (2, "Low Risk")]

/-- `np.unique(predictions, return_counts=True)` zipped into a dict: the
distinct labels in ascending order, each with its occurrence count. -/
def value_counts (labels : List ℤ) : List (ℤ × ℕ) :=
  (List.insertionSort (· ≤ ·) labels.dedup).map fun c => (c, labels.count c)

/-- The `lines` list built inside `cluster_counts_text`; `mapping.get(c,
"Unknown")` is the dict lookup with the placeholder default. -/
def cluster_lines (vc : List (ℤ × ℕ)) (mapping : List (ℤ × String)) : List String :=
  vc.map fun p => ((mapping.lookup p.1).getD "Unknown") ++ ": " ++ toString p.2 ++ " reading(s)"

/-- `cluster_counts_text` from the script. -/
def cluster_counts_text (vc : List (ℤ × ℕ)) (mapping : List (ℤ × String)) : String :=
  String.intercalate "\n" (cluster_lines vc mapping)

/-- Environment-supplied channel identifier; its value is configuration,
outside the core model. -/
def READ_CHANNEL_ID : String := ""

/-- `build_email_text` from the script, as an Option: `none` is the
propagated exception from `to_ist` (or from a missing timestamp).  Numeric
values are rendered with the rational printer; no property below depends on
the body text. -/
def build_email_text (latest : Row) (cluster_summary : String) : Option (String × String) := do
  let ts ← latest.created_at
  let sensor_time_ist ← to_ist ts
  let subject := "Infection Risk Update"
  let body := "\n\nCluster Breakdown (Last 20 Readings):\n" ++ cluster_summary ++
    "\n\n\nLatest Sensor Readings at Time (" ++ sensor_time_ist ++ "):\n" ++
    "Temperature: " ++ toString latest.temp ++ "\n" ++
    "Humidity: " ++ toString latest.humidity ++ "\n" ++
    "Pressure: " ++ toString latest.pressure ++ "\n" ++
    "PM2.5 (Dust): " ++ toString latest.dust ++ "\n" ++
    "CO2: " ++ toString latest.co2 ++ "\n" ++
    "TVOC: " ++ toString latest.tvoc ++ "\n\n" ++
    "ThingSpeak Channel:\n" ++ "https://thingspeak.com/channels/" ++ READ_CHANNEL_ID ++ "\n"
  pure (subject, body)

/-- The writeback dictionary `update_payload` (the api_key entry is
configuration, outside the core model). -/
structure Payload where
  field1 : ℚ
  field2 : ℚ
  field3 : ℚ
  field4 : ℚ
  field5 : ℚ
  field6 : ℚ
  field7 : ℤ
  field8 : String
deriving DecidableEq

/-- Build the writeback payload from the latest row and the tally text. -/
def update_payload (latest : Row) (cluster_summary : String) : Payload :=
  { field1 := latest.temp
    field2 := latest.humidity
    field3 := latest.pressure
    field4 := latest.dust
    field5 := latest.co2
    field6 := latest.tvoc
    field7 := -1
    field8 := cluster_summary }

/-- Terminal outcome of one pipeline run: the early "No data found" exit, or
completion with the writeback payload and the (possibly failed) email text. -/
inductive RunOutcome where
  | noData : RunOutcome
  | done : Payload → Option (String × String) → RunOutcome

/-- The script's top-level flow after the fetch: empty-window check, row
building, prediction, tally, summary, latest row, payload, email text. -/
def runPipeline (m : RiskModel) (feeds : List Feed) : RunOutcome :=
  match feeds with
  | [] => RunOutcome.noData
  | f0 :: fs =>
    let rows := (f0 :: fs).map mkRow
    let X := rows.map rowVec
    let preds := predictions m X
    let vc := value_counts preds
    let cluster_summary := cluster_counts_text vc cluster_to_risk
    let latest := rows.getLast (by show (f0 :: fs).map mkRow ≠ []; simp)
    RunOutcome.done (update_payload latest cluster_summary)
      (build_email_text latest cluster_summary)

/-! ### Definitions written from the spec's words -/

/-- Modelled from the spec: the mode aggregation policy of §4.4, which is
absent from the source (the source's revision replaced it with the tally);
the most frequent label of the window, with the spec's deterministic
tie-break to the lowest numeric label among the tied ones. -/
def modePolicy (labels : List ℤ) : Option ℤ :=
  (List.insertionSort (· ≤ ·) labels.dedup).find? fun c =>
    decide (∀ c2 ∈ labels, labels.count c2 ≤ labels.count c)

/-- Modelled from the spec: the literal reading of the format notation
YYYY-MM-DDTHH:MM:SSZ used by the specification — four year digits, two
zero-padded digits for each other field, fields in their nominal ranges,
uppercase literals.  Used to compare the spec's wording with the parser's
actual acceptance. -/
def strictFormat (s : String) : Bool :=
  match s.data with
  | [y1, y2, y3, y4, '-', m1, m2, '-', d1, d2, 'T', h1, h2, ':', n1, n2, ':', s1, s2, 'Z'] =>
    ([y1, y2, y3, y4, m1, m2, d1, d2, h1, h2, n1, n2, s1, s2].all Char.isDigit) &&
      (let mo := (m1.toNat - 48) * 10 + (m2.toNat - 48)
       let d := (d1.toNat - 48) * 10 + (d2.toNat - 48)
       let h := (h1.toNat - 48) * 10 + (h2.toNat - 48)
       let mi := (n1.toNat - 48) * 10 + (n2.toNat - 48)
       let sec := (s1.toNat - 48) * 10 + (s2.toNat - 48)
       1 ≤ mo && mo ≤ 12 && 1 ≤ d && d ≤ 31 && h ≤ 23 && mi ≤ 59 && sec ≤ 59)
  | _ => false

/-! ### Helper lemmas -/

/-- The labels column of the tally is the sorted deduplication of the window. -/
lemma value_counts_map_fst (labels : List ℤ) :
    (value_counts labels).map Prod.fst = List.insertionSort (· ≤ ·) labels.dedup := by
  simp [value_counts, List.map_map, Function.comp_def]

/-- Membership in the sorted deduplication agrees with the window. -/
lemma mem_insertionSort_dedup {labels : List ℤ} {c : ℤ} :
    c ∈ List.insertionSort (· ≤ ·) labels.dedup ↔ c ∈ labels := by
  rw [(List.perm_insertionSort _ _).mem_iff, List.mem_dedup]

/-- Every window label contributes its own tally entry. -/
lemma mem_value_counts_of_mem {labels : List ℤ} {c : ℤ} (h : c ∈ labels) :
    (c, labels.count c) ∈ value_counts labels := by
  exact List.mem_map_of_mem _ (mem_insertionSort_dedup.mpr h)

/-- The first satisfier that `find?` returns in a sorted list is a least
satisfier. -/
lemma find?_sorted_least {l : List ℤ} (hs : l.Sorted (· ≤ ·)) {p : ℤ → Bool} {a : ℤ}
    (h : l.find? p = some a) :
    p a = true ∧ a ∈ l ∧ ∀ b ∈ l, p b = true → a ≤ b := by
  induction l with
  | nil => simp at h
  | cons x xs ih =>
    rw [List.sorted_cons] at hs
    rw [List.find?_cons] at h
    cases hx : p x with
    | true =>
      rw [hx] at h
      obtain rfl : x = a := by simpa using h
      refine ⟨hx, List.mem_cons_self _ _, ?_⟩
      intro b hb _
      rcases List.mem_cons.mp hb with rfl | hb
      · exact le_refl b
      · exact hs.1 b hb
    | false =>
      rw [hx] at h
      obtain ⟨ha, hmem, hleast⟩ := ih hs.2 h
      refine ⟨ha, List.mem_cons_of_mem _ hmem, ?_⟩
      intro b hb hpb
      rcases List.mem_cons.mp hb with rfl | hb
      · rw [hpb] at hx; cases hx
      · exact hleast b hb hpb

/-- `find?` succeeds as soon as the list holds a satisfier. -/
lemma find?_isSome_of_mem {l : List ℤ} {p : ℤ → Bool} {a : ℤ} (hmem : a ∈ l)
    (ha : p a = true) : ∃ b, l.find? p = some b := by
  induction l with
  | nil => simp at hmem
  | cons x xs ih =>
    rw [List.find?_cons]
    cases hx : p x with
    | true => exact ⟨x, rfl⟩
    | false =>
      rcases List.mem_cons.mp hmem with rfl | hmem2
      · rw [ha] at hx; cases hx
      · exact ih hmem2

/-- A nonempty window has a label of maximal count. -/
lemma exists_max_count {labels : List ℤ} (h : labels ≠ []) :
    ∃ m ∈ labels, ∀ c ∈ labels, labels.count c ≤ labels.count m := by
  obtain ⟨x, hx⟩ := List.exists_mem_of_ne_nil labels h
  obtain ⟨m, hm, hmax⟩ := labels.toFinset.exists_max_image (labels.count ·)
    ⟨x, List.mem_toFinset.mpr hx⟩
  exact ⟨m, List.mem_toFinset.mp hm, fun c hc => hmax c (List.mem_toFinset.mpr hc)⟩

/-- Digit characters parse back to their value. -/
lemma digit?_digitChar {n : ℕ} (h : n ≤ 9) : digit? (digitChar n) = some n := by
  interval_cases n <;> rfl

/-- The %Y directive consumes exactly the four padded year digits. -/
lemma parse4_zp4 {y : ℕ} (h : y ≤ 9999) (rest : List Char) :
    parse4 (zp4 y ++ rest) = some (y, rest) := by
  have h1 : y / 1000 ≤ 9 := by omega
  have h2 : y / 100 % 10 ≤ 9 := by omega
  have h3 : y / 10 % 10 ≤ 9 := by omega
  have h4 : y % 10 ≤ 9 := by omega
  have e : ((y / 1000 * 10 + y / 100 % 10) * 10 + y / 10 % 10) * 10 + y % 10 = y := by omega
  simp [zp4, parse4, digit?_digitChar h1, digit?_digitChar h2, digit?_digitChar h3,
    digit?_digitChar h4, e]

/-- A two-digit field in its two-digit range consumes exactly its two padded
digits. -/
lemma parseField_zp2 {lo2 hi2 v : ℕ} (lo1 hi1 : ℕ) (hv : v ≤ 99) (h1 : lo2 ≤ v)
    (h2 : v ≤ hi2) (rest : List Char) :
    parseField lo2 hi2 lo1 hi1 (zp2 v ++ rest) = some (v, rest) := by
  have d1 : v / 10 ≤ 9 := by omega
  have d2 : v % 10 ≤ 9 := by omega
  have e : v / 10 * 10 + v % 10 = v := by omega
  simp [zp2, parseField, digit?_digitChar d1, digit?_digitChar d2, e, h1, h2]

/-- No month has more than 31 days. -/
lemma daysInMonth_le_31 (y m : ℕ) : daysInMonth y m ≤ 31 := by
  unfold daysInMonth
  split_ifs <;> omega

/-- The expected literal consumes exactly itself. -/
lemma expectCh_cons_self (c : Char) (rest : List Char) :
    expectCh c (c :: rest) = some rest := by
  simp [expectCh]

/-- An uppercase T satisfies the case-insensitive T literal. -/
lemma expectAny_T (rest : List Char) :
    expectAny ['T', 't'] ('T' :: rest) = some rest := by
  simp [expectAny]

/-- An uppercase Z satisfies the case-insensitive Z literal. -/
lemma expectAny_Z (rest : List Char) :
    expectAny ['Z', 'z'] ('Z' :: rest) = some rest := by
  simp [expectAny]

/-- The parser on a canonical zero-padded string: the regex stage always
succeeds within the directive ranges, and acceptance reduces to the
datetime constructor's calendar check. -/
lemma strptimeTs_canonical (y mo d h mi s : ℕ) (hy1 : 1 ≤ y) (hy2 : y ≤ 9999)
    (hmo1 : 1 ≤ mo) (hmo2 : mo ≤ 12) (hd1 : 1 ≤ d) (hd2 : d ≤ 31)
    (hh : h ≤ 23) (hmi : mi ≤ 59) (hs : s ≤ 59) :
    strptimeTs (canonicalTs y mo d h mi s) =
      if d ≤ daysInMonth y mo then some ⟨y, mo, d, h, mi, s⟩ else none := by
  have hstr : (canonicalTs y mo d h mi s).data =
      zp4 y ++ '-' :: (zp2 mo ++ '-' :: (zp2 d ++ 'T' ::
        (zp2 h ++ ':' :: (zp2 mi ++ ':' :: (zp2 s ++ ['Z']))))) := rfl
  unfold strptimeTs
  rw [hstr]
  simp only [Option.bind_eq_bind, Option.some_bind, parse4_zp4 hy2,
    parseField_zp2 1 9 (show mo ≤ 99 by omega) hmo1 hmo2,
    parseField_zp2 1 9 (show d ≤ 99 by omega) hd1 hd2,
    parseField_zp2 0 9 (show h ≤ 99 by omega) (Nat.zero_le h) hh,
    parseField_zp2 0 9 (show mi ≤ 99 by omega) (Nat.zero_le mi) hmi,
    parseField_zp2 0 9 (show s ≤ 99 by omega) (Nat.zero_le s) (show s ≤ 61 by omega),
    expectCh_cons_self, expectAny_T, expectAny_Z]
  by_cases hdm : d ≤ daysInMonth y mo
  · simp [hdm, hy1, hs]
  · simp [hdm]

/-! ### Theorems -/

example : safe_float (RawValue.str " 3.5 ") = 7/2 := by
  simp +decide [safe_float, pythonFloat?, trimPy, parseFloatChars, parseSign, parseMantissa,
    parseExp, digitsVal]
  norm_num

example : safe_float (RawValue.str "abc") = 0 := by rfl

example : safe_float RawValue.null = 0 := rfl

/-- C2: the risk transform pipeline applies the three pretrained stages in
the fixed order scaler, reducer, classifier — per input row exactly that
composition — and yields exactly one integer label per input row. -/
theorem predictions_stage_order :
    ∀ (m : RiskModel) (X : List (List ℚ)), 1 ≤ X.length → (∀ r ∈ X, r.length = 6) →
      predictions m X = X.map (fun r => m.classifier (m.reducer (m.scaler r))) ∧
      (predictions m X).length = X.length := by
  intro m X _ _
  constructor
  · simp [predictions, model_predict, pca_transform, scaler_transform, List.map_map,
      Function.comp_def]
  · simp [predictions, model_predict, pca_transform, scaler_transform]

/-- A concrete stand-in for the three pretrained stages, used to instantiate
the pipeline theorems. -/
def mWit : RiskModel :=
  { scaler := id
    reducer := fun r => r.take 2
    classifier := fun r => (r.length : ℤ) }

/-- Witness for C2 at a one-row, six-column matrix. -/
theorem predictions_stage_order_witness :
    predictions mWit [[(1:ℚ), 2, 3, 4, 5, 6]] =
      [[(1:ℚ), 2, 3, 4, 5, 6]].map (fun r => mWit.classifier (mWit.reducer (mWit.scaler r))) ∧
    (predictions mWit [[(1:ℚ), 2, 3, 4, 5, 6]]).length = 1 :=
  predictions_stage_order mWit [[(1:ℚ), 2, 3, 4, 5, 6]] (le_refl 1)
    (by intro r hr; rw [List.mem_singleton] at hr; subst hr; rfl)

/-- C3: under the tally policy the per-label counts sum to the window size,
every observed label appears exactly once, and zero-count labels are
omitted. -/
theorem value_counts_tally :
    ∀ labels : List ℤ, labels ≠ [] →
      ((value_counts labels).map Prod.snd).sum = labels.length ∧
      (∀ c : ℤ, c ∈ labels ↔ c ∈ (value_counts labels).map Prod.fst) ∧
      ((value_counts labels).map Prod.fst).Nodup ∧
      ∀ p ∈ value_counts labels, p.2 ≠ 0 ∧ p.1 ∈ labels := by
  intro labels _
  refine ⟨?_, ?_, ?_, ?_⟩
  · have hmap : (value_counts labels).map Prod.snd =
        (List.insertionSort (· ≤ ·) labels.dedup).map (labels.count ·) := by
      simp [value_counts, List.map_map, Function.comp_def]
    rw [hmap, ((List.perm_insertionSort _ _).map (labels.count ·)).sum_eq]
    exact List.sum_map_count_dedup_eq_length labels
  · intro c
    rw [value_counts_map_fst, mem_insertionSort_dedup]
  · rw [value_counts_map_fst]
    exact ((List.perm_insertionSort _ _).nodup_iff).mpr (List.nodup_dedup _)
  · intro p hp
    obtain ⟨c, hc, rfl⟩ := List.mem_map.mp hp
    have hcl : c ∈ labels := mem_insertionSort_dedup.mp hc
    refine ⟨?_, hcl⟩
    intro h0
    rw [List.count_eq_zero] at h0
    exact h0 hcl

/-- Witness for C3 at the window [2, 0, 1, 1, 0, 1]. -/
theorem value_counts_tally_witness :
    ((value_counts [2, 0, 1, 1, 0, 1]).map Prod.snd).sum = 6 ∧
    ((0 : ℤ) ∈ ([2, 0, 1, 1, 0, 1] : List ℤ) ↔
      (0 : ℤ) ∈ (value_counts [2, 0, 1, 1, 0, 1]).map Prod.fst) ∧
    ((value_counts [2, 0, 1, 1, 0, 1]).map Prod.fst).Nodup := by
  have h := value_counts_tally [2, 0, 1, 1, 0, 1] (by decide)
  exact ⟨h.1, h.2.1 0, h.2.2.1⟩

/-- C10: the tally enumerates labels in strictly ascending order, and both
the tally and the rendered summary depend only on the multiset of window
labels, not on their order of occurrence. -/
theorem value_counts_order_invariant :
    ∀ labels labels2 : List ℤ,
      ((value_counts labels).map Prod.fst).Sorted (· < ·) ∧
      (labels.Perm labels2 →
        value_counts labels = value_counts labels2 ∧
        cluster_counts_text (value_counts labels) cluster_to_risk =
          cluster_counts_text (value_counts labels2) cluster_to_risk) := by
  intro labels labels2
  constructor
  · rw [value_counts_map_fst]
    exact (List.sorted_insertionSort _ _).lt_of_le
      ((List.perm_insertionSort _ _).nodup_iff.mpr (List.nodup_dedup _))
  · intro hp
    have hu : List.insertionSort (α := ℤ) (· ≤ ·) labels.dedup =
        List.insertionSort (· ≤ ·) labels2.dedup := by
      haveI : IsAntisymm ℤ (· ≤ ·) := ⟨fun _ _ h1 h2 => le_antisymm h1 h2⟩
      exact List.eq_of_perm_of_sorted
        ((List.perm_insertionSort _ _).trans (hp.dedup.trans
          (List.perm_insertionSort _ _).symm))
        (List.sorted_insertionSort _ _) (List.sorted_insertionSort _ _)
    have hvc : value_counts labels = value_counts labels2 := by
      unfold value_counts
      rw [hu]
      apply List.map_congr_left
      intro c _
      rw [hp.count_eq]
    exact ⟨hvc, by rw [hvc]⟩

/-- Witness for C10: two orderings of the same window tally identically. -/
theorem value_counts_order_invariant_witness :
    ((value_counts [3, 1, 3, 0]).map Prod.fst).Sorted (· < ·) ∧
    value_counts ([3, 1, 3, 0] : List ℤ) = value_counts [0, 3, 1, 3] := by
  have h := value_counts_order_invariant [3, 1, 3, 0] [0, 3, 1, 3]
  exact ⟨h.1, (h.2 (by decide)).1⟩

/-- C1 counterexample: label 5 has no entry in the tier mapping, yet the
aggregation does not fail — it renders the placeholder tier. -/
theorem cluster_counts_text_unknown_ce :
    List.lookup (5 : ℤ) cluster_to_risk = none ∧
    cluster_counts_text (value_counts [(5 : ℤ)]) cluster_to_risk =
      "Unknown: 1 reading(s)" := by
  exact ⟨rfl, rfl⟩

/-- C1 amended: an unmapped cluster label never fails the aggregation; its
tally line is rendered with the placeholder tier "Unknown". -/
theorem cluster_counts_text_unknown_fallback :
    ∀ (labels : List ℤ) (mapping : List (ℤ × String)) (c : ℤ),
      c ∈ labels → List.lookup c mapping = none →
      ("Unknown: " ++ toString (labels.count c) ++ " reading(s)") ∈
        cluster_lines (value_counts labels) mapping := by
  intro labels mapping c hc hno
  have hmem := mem_value_counts_of_mem hc
  have hline := List.mem_map_of_mem
    (fun p : ℤ × ℕ =>
      ((mapping.lookup p.1).getD "Unknown") ++ ": " ++ toString p.2 ++ " reading(s)") hmem
  have key : ((mapping.lookup c).getD "Unknown") ++ ": " ++
      toString (labels.count c) ++ " reading(s)" =
      "Unknown: " ++ toString (labels.count c) ++ " reading(s)" := by
    rw [hno]
    rfl
  beta_reduce at hline
  rw [key] at hline
  exact hline

/-- Witness for C1's amended statement at the unmapped label 7. -/
theorem cluster_counts_text_unknown_fallback_witness :
    ("Unknown: " ++ toString (([(7 : ℤ)]).count 7) ++ " reading(s)") ∈
      cluster_lines (value_counts [(7 : ℤ)]) cluster_to_risk :=
  cluster_counts_text_unknown_fallback [7] cluster_to_risk 7 (by decide) rfl

/-- C8 (mode policy, modelled from the spec): the policy returns a label of
maximal count, and on ties the lowest numeric label among the tied ones; on
[0, 0, 1, 1] it returns 0. -/
theorem modePolicy_spec :
    (∀ labels : List ℤ, labels ≠ [] →
      ∃ m, modePolicy labels = some m ∧ m ∈ labels ∧
        (∀ c ∈ labels, labels.count c ≤ labels.count m) ∧
        (∀ c ∈ labels, labels.count c = labels.count m → m ≤ c)) ∧
    modePolicy [0, 0, 1, 1] = some 0 := by
  constructor
  · intro labels hne
    obtain ⟨mx, hmx, hmax⟩ := exists_max_count hne
    have hpmx : decide (∀ c2 ∈ labels, labels.count c2 ≤ labels.count mx) = true := by
      simpa using hmax
    obtain ⟨a, ha⟩ := find?_isSome_of_mem
      (p := fun c => decide (∀ c2 ∈ labels, labels.count c2 ≤ labels.count c))
      (mem_insertionSort_dedup.mpr hmx) hpmx
    obtain ⟨hpa, hamem, hleast⟩ :=
      find?_sorted_least (List.sorted_insertionSort _ _) ha
    have hpa2 : ∀ c2 ∈ labels, labels.count c2 ≤ labels.count a := by
      simpa using hpa
    refine ⟨a, ha, mem_insertionSort_dedup.mp hamem, hpa2, ?_⟩
    intro c hc hcnt
    apply hleast c (mem_insertionSort_dedup.mpr hc)
    simp only [decide_eq_true_eq]
    intro c2 hc2
    rw [hcnt]
    exact hpa2 c2 hc2
  · decide

/-- Witness for C8: the tied window [0, 0, 1, 1] resolves to label 0. -/
theorem modePolicy_spec_witness :
    modePolicy [0, 0, 1, 1] = some 0 ∧ (modePolicy [0, 0, 1, 1]).isSome = true := by
  refine ⟨modePolicy_spec.2, ?_⟩
  obtain ⟨m, hm, _⟩ := modePolicy_spec.1 [0, 0, 1, 1] (by decide)
  rw [hm]
  rfl

/-- C5: an empty ingestion window terminates with the "no data" outcome; the
result does not depend on the transform stages at all (none is invoked) and
no aggregate is computed. -/
theorem runPipeline_empty_noData :
    ∀ m m2 : RiskModel, runPipeline m [] = RunOutcome.noData ∧
      runPipeline m [] = runPipeline m2 [] :=
  fun _ _ => ⟨rfl, rfl⟩

/-- C7: a raw record whose six tracked fields parse as numbers yields
exactly those six values as its feature-matrix row, in canonical column
order, at the same position as the record; the matrix has one row per
record. -/
theorem featureMatrix_roundtrip :
    ∀ (feeds : List Feed) (i : ℕ) (f : Feed) (q1 q2 q3 q4 q5 q6 : ℚ),
      feeds[i]? = some f →
      pythonFloat? f.field1 = some q1 → pythonFloat? f.field2 = some q2 →
      pythonFloat? f.field3 = some q3 → pythonFloat? f.field4 = some q4 →
      pythonFloat? f.field5 = some q5 → pythonFloat? f.field6 = some q6 →
      (featureMatrix feeds)[i]? = some [q1, q2, q3, q4, q5, q6] ∧
      (featureMatrix feeds).length = feeds.length := by
  intro feeds i f q1 q2 q3 q4 q5 q6 hf h1 h2 h3 h4 h5 h6
  constructor
  · simp [featureMatrix, List.getElem?_map, hf, rowVec, mkRow, safe_float,
      h1, h2, h3, h4, h5, h6]
  · simp [featureMatrix]

/-- A concrete feed record with all six fields numeric. -/
def fWit : Feed :=
  { created_at := some "2024-01-01T00:00:00Z"
    field1 := RawValue.num 20
    field2 := RawValue.num 41
    field3 := RawValue.num 1013
    field4 := RawValue.num 12
    field5 := RawValue.num 600
    field6 := RawValue.num 5 }

/-- Witness for C7 at a single all-numeric record. -/
theorem featureMatrix_roundtrip_witness :
    (featureMatrix [fWit])[0]? = some [(20 : ℚ), 41, 1013, 12, 600, 5] ∧
    (featureMatrix [fWit]).length = 1 :=
  featureMatrix_roundtrip [fWit] 0 fWit 20 41 1013 12 600 5 rfl rfl rfl rfl rfl rfl rfl

/-- C9: on a nonempty window the run completes with a payload built from the
last row (the latest reading), and that payload carries the six sensor
values of the latest reading in fields 1-6, the sentinel label -1 in field
7, and the tally text in field 8. -/
theorem runPipeline_payload_spec :
    (∀ (m : RiskModel) (f0 : Feed) (fs : List Feed),
      runPipeline m (f0 :: fs) =
        RunOutcome.done
          (update_payload (mkRow ((f0 :: fs).getLast (List.cons_ne_nil f0 fs)))
            (cluster_counts_text
              (value_counts (predictions m (featureMatrix (f0 :: fs)))) cluster_to_risk))
          (build_email_text (mkRow ((f0 :: fs).getLast (List.cons_ne_nil f0 fs)))
            (cluster_counts_text
              (value_counts (predictions m (featureMatrix (f0 :: fs)))) cluster_to_risk))) ∧
    (∀ (latest : Row) (cs : String),
      (update_payload latest cs).field1 = latest.temp ∧
      (update_payload latest cs).field2 = latest.humidity ∧
      (update_payload latest cs).field3 = latest.pressure ∧
      (update_payload latest cs).field4 = latest.dust ∧
      (update_payload latest cs).field5 = latest.co2 ∧
      (update_payload latest cs).field6 = latest.tvoc ∧
      (update_payload latest cs).field7 = -1 ∧
      (update_payload latest cs).field8 = cs) := by
  constructor
  · intro m f0 fs
    simp only [runPipeline, featureMatrix]
    rw [List.getLast_map]
  · intro latest cs
    exact ⟨rfl, rfl, rfl, rfl, rfl, rfl, rfl, rfl⟩

/-- C4: numeric coercion of a tracked field is total: it returns the parsed
value when Python float() succeeds on the raw value and the sentinel 0.0
when it would raise (non-numeric string, missing field, null). -/
theorem safe_float_total_spec :
    (∀ x : RawValue, (∃ q, pythonFloat? x = some q ∧ safe_float x = q) ∨
      (pythonFloat? x = none ∧ safe_float x = 0)) ∧
    (∀ q : ℚ, safe_float (RawValue.num q) = q) ∧
    safe_float RawValue.null = 0 := by
  refine ⟨fun x => ?_, fun q => rfl, rfl⟩
  cases h : pythonFloat? x with
  | none => exact Or.inr ⟨rfl, by simp [safe_float, h]⟩
  | some q => exact Or.inl ⟨q, rfl, by simp [safe_float, h]⟩

/-- C6 counterexample: "2024-02-30T00:00:00Z" matches the literal
YYYY-MM-DDTHH:MM:SSZ pattern yet conversion fails (no February 30), while
"2024-1-01T00:00:00Z" does not match the literal pattern yet conversion
succeeds (strptime accepts an unpadded month).  So success is not
equivalent to matching the format as literally stated. -/
theorem to_ist_format_ce :
    strictFormat "2024-02-30T00:00:00Z" = true ∧
    to_ist "2024-02-30T00:00:00Z" = none ∧
    strictFormat "2024-1-01T00:00:00Z" = false ∧
    (to_ist "2024-1-01T00:00:00Z").isSome = true :=
  ⟨rfl, rfl, rfl, rfl⟩

/-- C6 amended: conversion succeeds on exactly the strings accepted by the
strptime pattern for the format — every calendar-valid zero-padded
YYYY-MM-DDTHH:MM:SSZ string (seconds at most 59, year at least 1) is
accepted and rendered as the parsed time shifted by the fixed 330-minute
offset; a digit-pattern-valid but calendar-invalid day is rejected; a
parse failure propagates to the report composer, which then produces no
email; and conversion succeeds exactly when parsing does. -/
theorem to_ist_amended :
    (∀ y mo d h mi s : ℕ, 1 ≤ y → y ≤ 9999 → 1 ≤ mo → mo ≤ 12 →
      1 ≤ d → d ≤ daysInMonth y mo → h ≤ 23 → mi ≤ 59 → s ≤ 59 →
      to_ist (canonicalTs y mo d h mi s) =
        some (renderIst (addMin330 ⟨y, mo, d, h, mi, s⟩))) ∧
    (∀ y mo d h mi s : ℕ, 1 ≤ y → y ≤ 9999 → 1 ≤ mo → mo ≤ 12 →
      daysInMonth y mo < d → d ≤ 31 → h ≤ 23 → mi ≤ 59 → s ≤ 59 →
      to_ist (canonicalTs y mo d h mi s) = none) ∧
    (∀ (r : Row) (cs ts : String), r.created_at = some ts → to_ist ts = none →
      build_email_text r cs = none) ∧
    (∀ ts : String, (to_ist ts).isSome ↔ (strptimeTs ts).isSome) := by
  refine ⟨?_, ?_, ?_, ?_⟩
  · intro y mo d h mi s hy1 hy2 hmo1 hmo2 hd1 hdm hh hmi hs
    have hd31 : d ≤ 31 := le_trans hdm (daysInMonth_le_31 y mo)
    unfold to_ist
    rw [strptimeTs_canonical y mo d h mi s hy1 hy2 hmo1 hmo2 hd1 hd31 hh hmi hs,
      if_pos hdm]
    rfl
  · intro y mo d h mi s hy1 hy2 hmo1 hmo2 hdm hd31 hh hmi hs
    unfold to_ist
    rw [strptimeTs_canonical y mo d h mi s hy1 hy2 hmo1 hmo2 (by omega) hd31 hh hmi hs,
      if_neg (by omega)]
    rfl
  · intro r cs ts hts hnone
    unfold build_email_text
    rw [hts]
    simp [hnone]
  · intro ts
    unfold to_ist
    cases strptimeTs ts <;> simp

/-- Witness for C6's amended statement: a concrete end-of-year timestamp
rolls over the date under the fixed offset; February 29 of a non-leap year
is rejected; a malformed timestamp yields no email. -/
theorem to_ist_amended_witness :
    canonicalTs 2024 12 31 20 0 0 = "2024-12-31T20:00:00Z" ∧
    to_ist (canonicalTs 2024 12 31 20 0 0) =
      some (renderIst (addMin330 ⟨2024, 12, 31, 20, 0, 0⟩)) ∧
    renderIst (addMin330 ⟨2024, 12, 31, 20, 0, 0⟩) = "01-01-25 01:30:00 AM" ∧
    to_ist (canonicalTs 2023 2 29 10 0 0) = none ∧
    build_email_text
      { created_at := some "bad", temp := 0, humidity := 0, pressure := 0,
        dust := 0, co2 := 0, tvoc := 0 } "x" = none :=
  ⟨rfl,
   to_ist_amended.1 2024 12 31 20 0 0 (by decide) (by decide) (by decide) (by decide)
     (by decide) (by decide) (by decide) (by decide) (by decide),
   rfl,
   to_ist_amended.2.1 2023 2 29 10 0 0 (by decide) (by decide) (by decide) (by decide)
     (by decide) (by decide) (by decide) (by decide) (by decide),
   to_ist_amended.2.2.1 _ "x" "bad" rfl rfl⟩

end InfectionRisk
